import Mathlib

/-!
Verification development for the aiida-mlip plugin layer: the YAML config
record, the cacheable model-file data type, the calculation-job input
resolution, and the output-file parsers. The Python sources of the package
are not available in this tree (only documentation, examples and CI are),
so each operation is modelled from the specification document and marked
as such in its doc comment.
-/

namespace AiidaMlip

/-- A config or input key. -/
abbrev Key := String

/-- The parsed mapping of a YAML config record: an association list of
keys and values (keys unique in well-formed configs). -/
abbrev ConfigMap := List (Key × String)

/-- First-match association-list lookup, used for config mappings, cache
directories and job tables. -/
def lookupKey {κ α : Type} [DecidableEq κ] (k : κ) : List (κ × α) → Option α
  | [] => none
  | kv :: tl => if kv.1 = k then some kv.2 else lookupKey k tl

@[simp]
theorem lookupKey_nil {κ α : Type} [DecidableEq κ] (k : κ) :
    lookupKey (α := α) k [] = none := rfl

theorem lookupKey_cons {κ α : Type} [DecidableEq κ] (k : κ) (kv : κ × α)
    (tl : List (κ × α)) :
    lookupKey k (kv :: tl) = if kv.1 = k then some kv.2 else lookupKey k tl := rfl

/-- Modelled from the spec: the three-tier resolution rule for one
recognized calculation parameter (source code of the calculation job
classes is missing from the tree). If the parameter is supplied directly
as an input, that value is used; otherwise, if the matching key is present
in the config mapping, the config value is used; otherwise the built-in
default is used. -/
def resolveParam (direct : Option String) (cfg : ConfigMap) (key : Key)
    (dflt : String) : String :=
  match direct with
  | some v => v
  | none =>
    match lookupKey key cfg with
    | some v => v
    | none => dflt

/-- The outcome of resolving every recognized parameter of a calculation:
the resolved value mapping together with the set of keys that must be
skipped when the config record is later stored. -/
structure Resolved where
  values : List (Key × String)
  skip : List Key
deriving Repr, DecidableEq

/-- Modelled from the spec: resolution of the whole recognized parameter
list of a calculation job class (Singlepoint, GeomOpt, MD, Descriptors,
Train), whose source code is missing from the tree. Each recognized
parameter comes with its built-in default and is resolved by the
three-tier rule; every key supplied both directly and in the config
mapping is recorded in the skip set so the config copy is not stored. -/
def resolveAll (recognized : List (Key × String)) (direct : Key → Option String)
    (cfg : ConfigMap) : Resolved :=
  { values := recognized.map (fun kd => (kd.1, resolveParam (direct kd.1) cfg kd.1 kd.2)),
    skip := (recognized.map Prod.fst).filter
      (fun k => (direct k).isSome && (lookupKey k cfg).isSome) }

/-- The type a config value is materialized as when stored: structure
paths become structure records, everything else becomes a text record. -/
inductive StoredType
  | structureRec
  | strRec
deriving Repr, DecidableEq

/-- Modelled from the spec: the best-effort typing used by store_content
(source code of JanusConfigfile is missing from the tree). The struct key
is recognised as a structure record; other values are stored as text. -/
def bestEffortType (k : Key) : StoredType :=
  if k = "struct" ∨ k = "structure" then StoredType.structureRec else StoredType.strRec

/-- Modelled from the spec: the fixed allow-list of provenance-relevant
keys stored when store_all is false: code, structure, model, architecture,
and the calculation-specific flags fully_opt (GeomOpt) and ensemble (MD). -/
def provenanceKeys : List Key :=
  ["code", "structure", "model", "architecture", "fully_opt", "ensemble"]

/-- Modelled from the spec: JanusConfigfile.store_content (source code
missing from the tree). With store_all false only allow-listed keys are
materialized as typed records; with store_all true every key of the config
mapping is materialized with its best-effort type; keys in the skip list
are excluded from storage in either mode. -/
def store_content (cfg : ConfigMap) (store_all : Bool) (skip : List Key) :
    List (Key × StoredType) :=
  if store_all then
    (cfg.filter (fun kv => ¬ kv.1 ∈ skip)).map (fun kv => (kv.1, bestEffortType kv.1))
  else
    (cfg.filter (fun kv => kv.1 ∈ provenanceKeys ∧ ¬ kv.1 ∈ skip)).map
      (fun kv => (kv.1, bestEffortType kv.1))

/-- Looking up a key in the resolved value mapping returns its three-tier
resolution, provided the recognized keys are distinct. -/
theorem lookup_resolveAll (recognized : List (Key × String))
    (direct : Key → Option String) (cfg : ConfigMap) (k : Key) (d : String)
    (hmem : (k, d) ∈ recognized)
    (hnodup : (recognized.map Prod.fst).Nodup) :
    lookupKey k (resolveAll recognized direct cfg).values =
      some (resolveParam (direct k) cfg k d) := by
  induction recognized with
  | nil => cases hmem
  | cons hd tl ih =>
    simp only [List.map_cons, List.nodup_cons] at hnodup
    rcases List.mem_cons.mp hmem with heq | htl
    · subst heq
      simp [resolveAll, lookupKey_cons]
    · have hne : hd.1 ≠ k := by
        intro h
        exact hnodup.1 (h ▸ List.mem_map_of_mem Prod.fst htl)
      have := ih htl hnodup.2
      simpa [resolveAll, lookupKey_cons, hne] using this

/-- A key recorded in the skip set never appears among the records
materialized by store_content, in either storage mode. -/
theorem store_content_skip_excluded (cfg : ConfigMap) (store_all : Bool)
    (skip : List Key) (k : Key) (hk : k ∈ skip) :
    ∀ r ∈ store_content cfg store_all skip, r.1 ≠ k := by
  intro r hr
  unfold store_content at hr
  rcases store_all with _ | _ <;> simp only [Bool.false_eq_true, if_true, if_false,
    ite_true, ite_false, List.mem_map, List.mem_filter] at hr
  · obtain ⟨kv, ⟨_, hcond⟩, hrk⟩ := hr
    intro hcontra
    rw [← hrk] at hcontra
    simp only at hcontra
    rw [hcontra] at hcond
    simp [hk] at hcond
  · obtain ⟨kv, ⟨_, hcond⟩, hrk⟩ := hr
    intro hcontra
    rw [← hrk] at hcontra
    simp only at hcontra
    rw [hcontra] at hcond
    simp [hk] at hcond

/-- A download failure: the transfer failed or the response was not
successful. -/
inductive DownloadError
  | transferFailed
  | badResponse
deriving Repr, DecidableEq

/-- The local model-weights cache: a mapping from destination paths to
file contents. -/
structure CacheState where
  files : List (String × String)
deriving Repr, DecidableEq

/-- Modelled from the spec: the fixed default cache directory used when no
cache directory is supplied to ModelData (source code missing from the
tree; the documentation names the mlips cache folder). -/
def default_cache_dir : String := "~/.cache/mlips"

/-- The characters of the final slash-separated segment of a path,
accumulated left to right. -/
def lastSegAux : List Char → List Char → List Char
  | [], acc => acc.reverse
  | c :: cs, acc => if c = '/' then lastSegAux cs [] else lastSegAux cs (c :: acc)

/-- Modelled from the spec: the destination filename derived from the URI
when no filename override is supplied; the final path segment of the URI. -/
def filenameFromUri (uri : String) : String :=
  String.mk (lastSegAux uri.data [])

/-- Modelled from the spec: the computed destination path
cache_dir/architecture/filename; the architecture subfolder appears only
when an architecture label is given. -/
def destPath (cache_dir : String) (arch : Option String) (fname : String) :
    String :=
  match arch with
  | some a => cache_dir ++ "/" ++ a ++ "/" ++ fname
  | none => cache_dir ++ "/" ++ fname

/-- The outcome of constructing a ModelData record from a URI: the cache
state afterwards, the destination path, the stored content, and whether
the network was accessed. -/
structure UriOutcome where
  state : CacheState
  dest : String
  content : String
  networkAccessed : Bool
deriving Repr, DecidableEq

/-- Modelled from the spec: ModelData.from_uri (source code missing from
the tree). The destination path is computed from the cache directory
(default when absent), the architecture subfolder and the filename
(derived from the URI when absent). If a file already exists there and no
forced re-download is requested, it is reused without network access;
otherwise the file is fetched and written, and a download error is raised
if the transfer fails or the response is not successful. The network is
abstracted as a fetch oracle from URIs to content or error. -/
def resolvedDest (uri : String) (cache_dir arch filename : Option String) :
    String :=
  destPath (cache_dir.getD default_cache_dir) arch
    (filename.getD (filenameFromUri uri))

/-- Modelled from the spec: the write step of ModelData.from_uri when the
file must be fetched; a download error is raised if the transfer fails or
the response is not successful. -/
def fetchAndWrite (fetch : String → Except DownloadError String)
    (st : CacheState) (uri dest : String) : Except DownloadError UriOutcome :=
  match fetch uri with
  | Except.ok c2 => Except.ok ⟨⟨(dest, c2) :: st.files⟩, dest, c2, true⟩
  | Except.error e => Except.error e

def from_uri (fetch : String → Except DownloadError String) (st : CacheState)
    (uri : String) (cache_dir : Option String) (arch : Option String)
    (filename : Option String) (force_download : Bool) :
    Except DownloadError UriOutcome :=
  match lookupKey (resolvedDest uri cache_dir arch filename) st.files with
  | some c =>
    if force_download then
      fetchAndWrite fetch st uri (resolvedDest uri cache_dir arch filename)
    else
      Except.ok ⟨st, resolvedDest uri cache_dir arch filename, c, false⟩
  | none => fetchAndWrite fetch st uri (resolvedDest uri cache_dir arch filename)

/-- After any successful construction from a URI, the destination path is
the computed one and the cache holds the returned content there. -/
theorem from_uri_stores (fetch : String → Except DownloadError String)
    (st : CacheState) (uri : String) (cache_dir arch filename : Option String)
    (force_download : Bool) (o : UriOutcome)
    (h : from_uri fetch st uri cache_dir arch filename force_download =
      Except.ok o) :
    o.dest = resolvedDest uri cache_dir arch filename ∧
    lookupKey o.dest o.state.files = some o.content := by
  unfold from_uri at h
  split at h
  · split at h
    · unfold fetchAndWrite at h
      split at h
      · cases h
        simp [lookupKey_cons]
      · cases h
    · cases h
      constructor
      · rfl
      · assumption
  · unfold fetchAndWrite at h
    split at h
    · cases h
      simp [lookupKey_cons]
    · cases h

/-- C3: constructing the model-file record from a URI is idempotent with
respect to the cache: after any successful construction, a second
construction without forced re-download performs no network access and
yields the same stored content with the cache unchanged; when the
destination is absent from the cache the file is fetched and written, and
a failing fetch propagates its download error. -/
theorem claim_c3_cache_idempotent
    (fetch : String → Except DownloadError String) (st : CacheState)
    (uri : String) (cache_dir arch filename : Option String) :
    (∀ force_download o,
      from_uri fetch st uri cache_dir arch filename force_download =
        Except.ok o →
      from_uri fetch o.state uri cache_dir arch filename false =
        Except.ok ⟨o.state, o.dest, o.content, false⟩) ∧
    (lookupKey (resolvedDest uri cache_dir arch filename) st.files = none →
      (∀ c, fetch uri = Except.ok c →
        from_uri fetch st uri cache_dir arch filename false =
          Except.ok ⟨⟨(resolvedDest uri cache_dir arch filename, c) :: st.files⟩,
            resolvedDest uri cache_dir arch filename, c, true⟩) ∧
      (∀ e, fetch uri = Except.error e →
        from_uri fetch st uri cache_dir arch filename false =
          Except.error e)) := by
  refine ⟨?_, ?_⟩
  · intro force_download o h
    obtain ⟨hdest, hlook⟩ :=
      from_uri_stores fetch st uri cache_dir arch filename force_download o h
    rw [hdest] at hlook
    simp [from_uri, hlook, hdest]
  · intro hnone
    constructor
    · intro c hc
      simp [from_uri, hnone, fetchAndWrite, hc]
    · intro e he
      simp [from_uri, hnone, fetchAndWrite, he]

/-- Witness for C3 at a concrete input: re-constructing from a URI whose
file is already cached returns the cached content without network access. -/
theorem claim_c3_cache_idempotent_witness :
    from_uri (fun _ => Except.ok "weights")
      ⟨[("cache/mace/model", "weights")]⟩ "u" (some "cache") (some "mace")
      (some "model") false =
      Except.ok ⟨⟨[("cache/mace/model", "weights")]⟩, "cache/mace/model",
        "weights", false⟩ :=
  (claim_c3_cache_idempotent (fun _ => Except.ok "weights") ⟨[]⟩ "u"
      (some "cache") (some "mace") (some "model")).1 false
    ⟨⟨[("cache/mace/model", "weights")]⟩, "cache/mace/model", "weights", true⟩
    rfl

/-- C10: without an explicit cache directory the fixed default cache
directory is used, an architecture-named subfolder is used under it when
an architecture label is given, the destination filename is derived from
the URI when no override is supplied, and the content is stored at that
destination. -/
theorem claim_c10_default_cache
    (fetch : String → Except DownloadError String) (st : CacheState)
    (uri a : String) (force_download : Bool) (o : UriOutcome)
    (h : from_uri fetch st uri none (some a) none force_download =
      Except.ok o) :
    o.dest = default_cache_dir ++ "/" ++ a ++ "/" ++ filenameFromUri uri ∧
    lookupKey o.dest o.state.files = some o.content := by
  obtain ⟨hdest, hlook⟩ :=
    from_uri_stores fetch st uri none (some a) none force_download o h
  exact ⟨by rw [hdest]; rfl, hlook⟩

/-- Witness for C10 at a concrete input: downloading a model with no cache
directory and no filename override lands under the default cache folder,
in the architecture subfolder, named by the final URI segment. -/
theorem claim_c10_default_cache_witness :
    (⟨⟨[("~/.cache/mlips/mace/model.bin", "w")]⟩,
        "~/.cache/mlips/mace/model.bin", "w", true⟩ : UriOutcome).dest =
      default_cache_dir ++ "/" ++ "mace" ++ "/" ++
        filenameFromUri "http://host/path/model.bin" ∧
    lookupKey (⟨⟨[("~/.cache/mlips/mace/model.bin", "w")]⟩,
        "~/.cache/mlips/mace/model.bin", "w", true⟩ : UriOutcome).dest
      (⟨⟨[("~/.cache/mlips/mace/model.bin", "w")]⟩,
        "~/.cache/mlips/mace/model.bin", "w", true⟩ : UriOutcome).state.files =
      some "w" :=
  claim_c10_default_cache (fun _ => Except.ok "w") ⟨[]⟩
    "http://host/path/model.bin" "mace" false
    ⟨⟨[("~/.cache/mlips/mace/model.bin", "w")]⟩,
      "~/.cache/mlips/mace/model.bin", "w", true⟩ (by rfl)

/-- An input-validation failure raised while building a calculation,
before any file is staged. -/
inductive InputError
  | missingRequired (k : Key)
  | fineTuneWithoutFoundation
deriving Repr, DecidableEq

/-- The inputs of a training calculation: the config record holding the
training parameters, the fine_tune flag, and an optional directly
supplied foundation model. -/
structure TrainInputs where
  mlip_config : ConfigMap
  fine_tune : Bool
  foundation_model : Option String
deriving Repr, DecidableEq

/-- The build product of a calculation: the files staged into the
execution sandbox and the command line handed to the host engine, which
alone starts the external process. -/
structure BuildPlan where
  stagedFiles : List String
  cmdline : List String
deriving Repr, DecidableEq

/-- Modelled from the spec: the mandatory keys of a training config. -/
def trainRequiredKeys : List Key :=
  ["name", "train_file", "valid_file", "test_file"]

/-- The first of the given keys that is absent from the config mapping. -/
def firstMissing (cfg : ConfigMap) : List Key → Option Key
  | [] => none
  | k :: ks =>
    match lookupKey k cfg with
    | some _ => firstMissing cfg ks
    | none => some k

/-- Modelled from the spec: building the Train calculation (source code
missing from the tree). Validation runs before any staging: the mandatory
config keys must be present, and fine-tuning requires a foundation model
supplied directly or under the foundation_model config key; only a
successful validation produces a build plan with staged files and a
command line. -/
def trainBuild (inp : TrainInputs) : Except InputError BuildPlan :=
  match firstMissing inp.mlip_config trainRequiredKeys with
  | some k => Except.error (InputError.missingRequired k)
  | none =>
    if inp.fine_tune ∧ inp.foundation_model = none ∧
        lookupKey "foundation_model" inp.mlip_config = none then
      Except.error InputError.fineTuneWithoutFoundation
    else
      Except.ok
        { stagedFiles :=
            "mlip_train.yml" ::
              (match inp.foundation_model with
               | some m => [m]
               | none => []),
          cmdline :=
            ["train", "--mlip-config", "mlip_train.yml"] ++
              (if inp.fine_tune then ["--fine-tune"] else []) }

/-- C4: a training calculation built with fine_tune true and no foundation
model supplied directly or via the config fails with an input-validation
error, so no build plan is produced and nothing is staged or started. -/
theorem claim_c4_finetune_needs_foundation (inp : TrainInputs)
    (hft : inp.fine_tune = true)
    (hdirect : inp.foundation_model = none)
    (hcfg : lookupKey "foundation_model" inp.mlip_config = none) :
    (∃ e, trainBuild inp = Except.error e) ∧
    ∀ plan, trainBuild inp ≠ Except.ok plan := by
  have herr : ∃ e, trainBuild inp = Except.error e := by
    unfold trainBuild
    cases firstMissing inp.mlip_config trainRequiredKeys with
    | some k => exact ⟨InputError.missingRequired k, rfl⟩
    | none =>
      rw [if_pos ⟨hft, hdirect, hcfg⟩]
      exact ⟨InputError.fineTuneWithoutFoundation, rfl⟩
  refine ⟨herr, ?_⟩
  intro plan hplan
  obtain ⟨e, he⟩ := herr
  rw [hplan] at he
  cases he

/-- Witness for C4 at a concrete input: all mandatory training keys are
present, fine_tune is requested, and no foundation model is supplied. -/
theorem claim_c4_finetune_needs_foundation_witness :
    (∃ e, trainBuild ⟨[("name", "test"), ("train_file", "t.xyz"),
        ("valid_file", "v.xyz"), ("test_file", "s.xyz")], true, none⟩ =
      Except.error e) ∧
    ∀ plan, trainBuild ⟨[("name", "test"), ("train_file", "t.xyz"),
        ("valid_file", "v.xyz"), ("test_file", "s.xyz")], true, none⟩ ≠
      Except.ok plan :=
  claim_c4_finetune_needs_foundation
    ⟨[("name", "test"), ("train_file", "t.xyz"),
      ("valid_file", "v.xyz"), ("test_file", "s.xyz")], true, none⟩
    rfl rfl (by rfl)

/-- C1: for every recognized calculation parameter, the value used by a
calculation job class is resolved by the three-tier rule: a directly
supplied input wins; otherwise a matching config key is used; otherwise
the built-in default is used. -/
theorem claim_c1_three_tier (recognized : List (Key × String))
    (direct : Key → Option String) (cfg : ConfigMap) (k : Key) (d : String)
    (hmem : (k, d) ∈ recognized)
    (hnodup : (recognized.map Prod.fst).Nodup) :
    (∀ v, direct k = some v →
      lookupKey k (resolveAll recognized direct cfg).values = some v) ∧
    (direct k = none → ∀ w, lookupKey k cfg = some w →
      lookupKey k (resolveAll recognized direct cfg).values = some w) ∧
    (direct k = none → lookupKey k cfg = none →
      lookupKey k (resolveAll recognized direct cfg).values = some d) := by
  have hbase := lookup_resolveAll recognized direct cfg k d hmem hnodup
  refine ⟨?_, ?_, ?_⟩
  · intro v hv
    rw [hbase]
    simp [resolveParam, hv]
  · intro hnone w hw
    rw [hbase]
    simp [resolveParam, hnone, hw]
  · intro hnone hcfg
    rw [hbase]
    simp [resolveParam, hnone, hcfg]

/-- Witness for C1 at a concrete input: with one recognized parameter
device (default cpu), a config value gpu and a direct value cuda, the
resolved value is the direct one. -/
theorem claim_c1_three_tier_witness :
    lookupKey "device" (resolveAll [("device", "cpu")]
      (fun k => if k = "device" then some "cuda" else none)
      [("device", "gpu")]).values = some "cuda" :=
  (claim_c1_three_tier [("device", "cpu")]
      (fun k => if k = "device" then some "cuda" else none)
      [("device", "gpu")] "device" "cpu" (by simp) (by simp)).1
    "cuda" (by simp)

/-- C2: for a key present both in the config mapping and as a directly
supplied input, the direct value is the one used, the key is added to the
skip set, and it is excluded from the records materialized by
store_content, even with store_all true. -/
theorem claim_c2_direct_wins_and_skipped (recognized : List (Key × String))
    (direct : Key → Option String) (cfg : ConfigMap) (k : Key) (d v w : String)
    (hmem : (k, d) ∈ recognized)
    (hnodup : (recognized.map Prod.fst).Nodup)
    (hdir : direct k = some v) (hcfg : lookupKey k cfg = some w) :
    lookupKey k (resolveAll recognized direct cfg).values = some v ∧
    k ∈ (resolveAll recognized direct cfg).skip ∧
    ∀ r ∈ store_content cfg true (resolveAll recognized direct cfg).skip,
      r.1 ≠ k := by
  have hval := (claim_c1_three_tier recognized direct cfg k d hmem hnodup).1 v hdir
  have hskip : k ∈ (resolveAll recognized direct cfg).skip := by
    unfold resolveAll
    simp only [List.mem_filter]
    exact ⟨List.mem_map_of_mem Prod.fst hmem, by simp [hdir, hcfg]⟩
  exact ⟨hval, hskip, store_content_skip_excluded cfg true _ k hskip⟩

/-- Witness for C2 at the spec example: config keys struct and device,
direct device cuda; the effective device is cuda, device enters the skip
set, and no device record is materialized with store_all true. -/
theorem claim_c2_direct_wins_and_skipped_witness :
    lookupKey "device" (resolveAll [("device", "cpu")]
      (fun k => if k = "device" then some "cuda" else none)
      [("struct", "a.cif"), ("device", "cpu")]).values = some "cuda" ∧
    "device" ∈ (resolveAll [("device", "cpu")]
      (fun k => if k = "device" then some "cuda" else none)
      [("struct", "a.cif"), ("device", "cpu")]).skip ∧
    ∀ r ∈ store_content [("struct", "a.cif"), ("device", "cpu")] true
      (resolveAll [("device", "cpu")]
        (fun k => if k = "device" then some "cuda" else none)
        [("struct", "a.cif"), ("device", "cpu")]).skip,
      r.1 ≠ "device" :=
  claim_c2_direct_wins_and_skipped [("device", "cpu")]
    (fun k => if k = "device" then some "cuda" else none)
    [("struct", "a.cif"), ("device", "cpu")] "device" "cpu" "cuda" "cpu"
    (by simp) (by simp) (by simp) (by simp [lookupKey])

/-- C7: with store_all false only allow-listed provenance keys are
materialized, each with its best-effort type; with store_all true every
config key outside the skip list is materialized with its best-effort
type, and nothing else is. -/
theorem claim_c7_store_content (cfg : ConfigMap) (skip : List Key) :
    (∀ r ∈ store_content cfg false skip,
        r.1 ∈ provenanceKeys ∧ r.2 = bestEffortType r.1) ∧
    (∀ r ∈ store_content cfg true skip,
        ¬ r.1 ∈ skip ∧ (∃ v, (r.1, v) ∈ cfg) ∧ r.2 = bestEffortType r.1) ∧
    (∀ kv ∈ cfg, ¬ kv.1 ∈ skip →
        (kv.1, bestEffortType kv.1) ∈ store_content cfg true skip) := by
  refine ⟨?_, ?_, ?_⟩
  · intro r hr
    simp only [store_content, Bool.false_eq_true, if_false, List.mem_map,
      List.mem_filter, decide_eq_true_eq] at hr
    obtain ⟨kv, ⟨_, hcond⟩, hrk⟩ := hr
    rw [← hrk]
    exact ⟨hcond.1, rfl⟩
  · intro r hr
    simp only [store_content, if_true, List.mem_map, List.mem_filter,
      decide_eq_true_eq] at hr
    obtain ⟨kv, ⟨hmem, hcond⟩, hrk⟩ := hr
    rw [← hrk]
    exact ⟨hcond, ⟨kv.2, hmem⟩, rfl⟩
  · intro kv hmem hskip
    simp only [store_content, if_true, List.mem_map, List.mem_filter,
      decide_eq_true_eq]
    exact ⟨kv, ⟨hmem, hskip⟩, rfl⟩

/-- Witness for C7 at a concrete config: with device skipped, the struct
key is materialized as a structure record under store_all true. -/
theorem claim_c7_store_content_witness :
    ("struct", bestEffortType "struct") ∈
      store_content [("struct", "a.cif"), ("device", "cpu")] true ["device"] :=
  (claim_c7_store_content [("struct", "a.cif"), ("device", "cpu")]
      ["device"]).2.2 ("struct", "a.cif") (by simp) (by simp)

/-- The numeric value of a decimal digit character. -/
def digit? (c : Char) : Option Nat :=
  if c.isDigit then some (c.toNat - 48) else none

/-- Accumulating decimal reading of a character list. -/
def parseNatAux : List Char → Nat → Option Nat
  | [], acc => some acc
  | c :: cs, acc =>
    match digit? c with
    | some d => parseNatAux cs (acc * 10 + d)
    | none => none

/-- A non-empty all-digit line read as a natural number. -/
def parseNatLine (s : String) : Option Nat :=
  match s.data with
  | [] => none
  | c :: cs => parseNatAux (c :: cs) 0

/-- One frame of the extended-xyz style results file: the atom-count
line, the comment line whose key=value tokens carry the per-frame results
metadata (cell, energy and the rest), and the atom lines. -/
structure Frame where
  countLine : String
  comment : String
  atomLines : List String
deriving Repr, DecidableEq

/-- A frame whose count line is the decimal count of its atom lines. -/
def Frame.WellFormed (f : Frame) : Prop :=
  parseNatLine f.countLine = some f.atomLines.length

instance (f : Frame) : Decidable f.WellFormed := by
  unfold Frame.WellFormed
  infer_instance

/-- The lines a frame occupies in the results file. -/
def frameLines (f : Frame) : List String :=
  f.countLine :: f.comment :: f.atomLines

/-- The lines of a whole multi-frame results file. -/
def framesToLines (fs : List Frame) : List String :=
  (fs.map frameLines).flatten

/-- Fuel-bounded recursive descent over the lines of a results file: a
count line, a comment line, then that many atom lines, repeated. -/
def parseFramesAux : Nat → List String → Option (List Frame)
  | _, [] => some []
  | 0, _ :: _ => none
  | fuel + 1, countLine :: rest =>
    match parseNatLine countLine with
    | none => none
    | some n =>
      match rest with
      | [] => none
      | comment :: body =>
        if n ≤ body.length then
          match parseFramesAux fuel (body.drop n) with
          | none => none
          | some fs => some (⟨countLine, comment, body.take n⟩ :: fs)
        else none

/-- Modelled from the spec: the structure-file reader used by the
parsers (the external reader library and the parser sources are missing
from the tree); it interprets the retrieved results file as an ordered
sequence of frames or fails. -/
def parseFrames (lines : List String) : Option (List Frame) :=
  parseFramesAux lines.length lines

/-- Splitting a character list into space-separated words. -/
def splitWords : List Char → List Char → List (List Char)
  | [], acc => if acc.isEmpty then [] else [acc.reverse]
  | c :: tl, acc =>
    if c = ' ' then
      if acc.isEmpty then splitWords tl [] else acc.reverse :: splitWords tl []
    else splitWords tl (c :: acc)

/-- Splitting a token at its first equals sign into a key and a value. -/
def splitEq : List Char → List Char → Option (String × String)
  | [], _ => none
  | c :: tl, acc =>
    if c = '=' then some (String.mk acc.reverse, String.mk tl)
    else splitEq tl (c :: acc)

/-- Modelled from the spec: the per-frame results mapping carried by the
comment line of the results file, read as key=value tokens. -/
def parseKVs (comment : String) : List (String × String) :=
  (splitWords comment.data []).filterMap (fun w => splitEq w [])

/-- The cell of a structure frame, carried under the Lattice key of its
results metadata. -/
def cellOf (f : Frame) : Option String :=
  lookupKey "Lattice" (parseKVs f.comment)

/-- The number of steps reported by a parsed trajectory output. -/
def numsteps (fs : List Frame) : Nat := fs.length

/-- Reading back the serialized lines of well-formed frames recovers
exactly the frames, under enough fuel. -/
theorem parseFramesAux_framesToLines (fs : List Frame) (fuel : Nat)
    (hwf : ∀ f ∈ fs, f.WellFormed) (hfuel : fs.length ≤ fuel) :
    parseFramesAux fuel (framesToLines fs) = some fs := by
  induction fs generalizing fuel with
  | nil =>
    cases fuel with
    | zero => rfl
    | succ n => rfl
  | cons f tl ih =>
    cases fuel with
    | zero => simp at hfuel
    | succ fuel =>
      have hf : parseNatLine f.countLine = some f.atomLines.length :=
        hwf f (List.mem_cons_self f tl)
      have hexp : framesToLines (f :: tl) =
          f.countLine :: f.comment :: (f.atomLines ++ framesToLines tl) := by
        simp [framesToLines, frameLines]
      have hdrop : (f.atomLines ++ framesToLines tl).drop f.atomLines.length =
          framesToLines tl := List.drop_left f.atomLines (framesToLines tl)
      have htake : (f.atomLines ++ framesToLines tl).take f.atomLines.length =
          f.atomLines := List.take_left f.atomLines (framesToLines tl)
      have hrec := ih fuel (fun g hg => hwf g (List.mem_cons_of_mem f hg))
        (by simp at hfuel; omega)
      rw [hexp]
      simp [parseFramesAux, hf, hdrop, htake, hrec]

/-- Each frame occupies at least one line, so the line count is enough
fuel to read the whole file back. -/
theorem length_le_framesToLines (fs : List Frame) :
    fs.length ≤ (framesToLines fs).length := by
  induction fs with
  | nil => simp [framesToLines]
  | cons f tl ih =>
    simp only [framesToLines, List.map_cons, List.flatten_cons,
      List.length_append, List.length_cons, frameLines] at ih ⊢
    omega

/-- Round trip of the structure-file reader: parsing the serialized lines
of well-formed frames recovers exactly the frames. -/
theorem parseFrames_framesToLines (fs : List Frame)
    (hwf : ∀ f ∈ fs, f.WellFormed) :
    parseFrames (framesToLines fs) = some fs :=
  parseFramesAux_framesToLines fs (framesToLines fs).length hwf
    (length_le_framesToLines fs)

/-- A typed output record emitted by a parser. -/
inductive OutVal
  | singleFile (lines : List String)
  | dict (d : List (String × String))
  | traj (fs : List Frame)
  | structureOut (f : Frame)
deriving Repr, DecidableEq

/-- The retrieved sandbox after the external engine exits, as the parser
sees it: each declared output file either present with its lines or
absent. -/
structure Retrieved where
  logLines : Option (List String)
  stdLines : Option (List String)
  xyzLines : Option (List String)
  trajLines : Option (List String)
deriving Repr, DecidableEq

/-- The exit codes a parser reports to the host engine through the
per-job status mechanism. -/
inductive ExitCode
  | missingOutput
  | parseError
deriving Repr, DecidableEq

/-- Modelled from the spec: the GeomOpt parser (source code missing from
the tree). It fails with a missing-output code when a declared output
file is absent, reads the log and standard output as opaque text, parses
the results file into frames whose last frame carries the results
mapping, and parses the trajectory file into the ordered per-step
structures whose last frame is the final structure; an uninterpretable
or empty results or trajectory file is a parse error. The parser is a
total function into an exit code or the named outputs, never a fault. -/
def geomOptParse (r : Retrieved) : Except ExitCode (List (String × OutVal)) :=
  match r.logLines with
  | none => Except.error ExitCode.missingOutput
  | some logLines =>
    match r.stdLines with
    | none => Except.error ExitCode.missingOutput
    | some stdLines =>
      match r.xyzLines with
      | none => Except.error ExitCode.missingOutput
      | some xyzLines =>
        match r.trajLines with
        | none => Except.error ExitCode.missingOutput
        | some trajLines =>
          match parseFrames xyzLines with
          | none => Except.error ExitCode.parseError
          | some xyzFrames =>
            match xyzFrames.getLast? with
            | none => Except.error ExitCode.parseError
            | some xyzLast =>
              match parseFrames trajLines with
              | none => Except.error ExitCode.parseError
              | some trajFrames =>
                match trajFrames.getLast? with
                | none => Except.error ExitCode.parseError
                | some lastFrame =>
                  Except.ok
                    [("log_output", OutVal.singleFile logLines),
                     ("xyz_output", OutVal.singleFile xyzLines),
                     ("std_output", OutVal.singleFile stdLines),
                     ("results_dict", OutVal.dict (parseKVs xyzLast.comment)),
                     ("traj_file", OutVal.singleFile trajLines),
                     ("traj_output", OutVal.traj trajFrames),
                     ("final_structure", OutVal.structureOut lastFrame)]

/-- The trajectory frames among emitted outputs. -/
def trajOf (outs : List (String × OutVal)) : Option (List Frame) :=
  match lookupKey "traj_output" outs with
  | some (OutVal.traj fs) => some fs
  | _ => none

/-- The final structure among emitted outputs. -/
def finalOf (outs : List (String × OutVal)) : Option Frame :=
  match lookupKey "final_structure" outs with
  | some (OutVal.structureOut f) => some f
  | _ => none

/-- Re-deriving the results mapping from the lines of a stored results
file: parse the frames and read the metadata of the last one. -/
def resultsFromLines (lines : List String) : Option (List (String × String)) :=
  match parseFrames lines with
  | none => none
  | some fs =>
    match fs.getLast? with
    | none => none
    | some f => some (parseKVs f.comment)

/-- The host-engine job lifecycle states this layer populates. -/
inductive JobState
  | running
  | finishedOk
  | finishedWithError (code : ExitCode)
deriving Repr, DecidableEq

/-- Modelled from the spec: recording a parse outcome in the host engine
per-job table; only the named job changes state, to finished on success
and to finished-with-error carrying the exit code on failure. -/
def recordOutcome (tbl : List (Nat × JobState)) (jobId : Nat)
    (r : Except ExitCode (List (String × OutVal))) : List (Nat × JobState) :=
  tbl.map (fun js =>
    if js.1 = jobId then
      (js.1,
        match r with
        | Except.ok _ => JobState.finishedOk
        | Except.error e => JobState.finishedWithError e)
    else js)

/-- Inversion of a successful GeomOpt parse: all four declared files were
present, both structure files parsed with a last frame each, and the
emitted outputs are the seven named records. -/
theorem geomOptParse_ok_inv (r : Retrieved) (outs : List (String × OutVal))
    (h : geomOptParse r = Except.ok outs) :
    ∃ logLines stdLines xyzLines trajLines xyzFrames xyzLast trajFrames
      lastFrame,
      r.logLines = some logLines ∧ r.stdLines = some stdLines ∧
      r.xyzLines = some xyzLines ∧ r.trajLines = some trajLines ∧
      parseFrames xyzLines = some xyzFrames ∧
      List.getLast? xyzFrames = some xyzLast ∧
      parseFrames trajLines = some trajFrames ∧
      List.getLast? trajFrames = some lastFrame ∧
      outs = [("log_output", OutVal.singleFile logLines),
              ("xyz_output", OutVal.singleFile xyzLines),
              ("std_output", OutVal.singleFile stdLines),
              ("results_dict", OutVal.dict (parseKVs xyzLast.comment)),
              ("traj_file", OutVal.singleFile trajLines),
              ("traj_output", OutVal.traj trajFrames),
              ("final_structure", OutVal.structureOut lastFrame)] := by
  obtain ⟨olog, ostd, oxyz, otraj⟩ := r
  cases olog with
  | none => simp [geomOptParse] at h
  | some logLines =>
  cases ostd with
  | none => simp [geomOptParse] at h
  | some stdLines =>
  cases oxyz with
  | none => simp [geomOptParse] at h
  | some xyzLines =>
  cases otraj with
  | none => simp [geomOptParse] at h
  | some trajLines =>
  cases hpx : parseFrames xyzLines with
  | none => simp [geomOptParse, hpx] at h
  | some xyzFrames =>
  cases hlx : List.getLast? xyzFrames with
  | none => simp [geomOptParse, hpx, hlx] at h
  | some xyzLast =>
  cases hpt : parseFrames trajLines with
  | none => simp [geomOptParse, hpx, hlx, hpt] at h
  | some trajFrames =>
  cases hlt : List.getLast? trajFrames with
  | none => simp [geomOptParse, hpx, hlx, hpt, hlt] at h
  | some lastFrame =>
  simp only [geomOptParse, hpx, hlx, hpt, hlt, Except.ok.injEq] at h
  exact ⟨logLines, stdLines, xyzLines, trajLines, xyzFrames, xyzLast,
    trajFrames, lastFrame, rfl, rfl, rfl, rfl, hpx, hlx, hpt, hlt, h.symm⟩

/-- C8: every successful GeomOpt parse emits exactly the named plugin
outputs log_output, xyz_output, std_output, results_dict, traj_file,
traj_output and final_structure; none is absent on success. -/
theorem claim_c8_output_names (r : Retrieved) (outs : List (String × OutVal))
    (h : geomOptParse r = Except.ok outs) :
    outs.map Prod.fst =
      ["log_output", "xyz_output", "std_output", "results_dict",
       "traj_file", "traj_output", "final_structure"] := by
  obtain ⟨_, _, _, _, _, _, _, _, _, _, _, _, _, _, _, _, houts⟩ :=
    geomOptParse_ok_inv r outs h
  rw [houts]
  rfl

/-- Witness for C8 at a concrete successful parse of a one-frame results
file and a one-frame trajectory. -/
theorem claim_c8_output_names_witness :
    ([("log_output", OutVal.singleFile ["l"]),
      ("xyz_output", OutVal.singleFile ["1", "Lattice=L", "H"]),
      ("std_output", OutVal.singleFile ["s"]),
      ("results_dict", OutVal.dict [("Lattice", "L")]),
      ("traj_file", OutVal.singleFile ["1", "Lattice=L", "H"]),
      ("traj_output", OutVal.traj [⟨"1", "Lattice=L", ["H"]⟩]),
      ("final_structure", OutVal.structureOut ⟨"1", "Lattice=L", ["H"]⟩)]
      : List (String × OutVal)).map Prod.fst =
      ["log_output", "xyz_output", "std_output", "results_dict",
       "traj_file", "traj_output", "final_structure"] :=
  claim_c8_output_names
    ⟨some ["l"], some ["s"], some ["1", "Lattice=L", "H"],
      some ["1", "Lattice=L", "H"]⟩ _ (by rfl)

/-- C9: for every successfully parsed calculation, the results_dict
output is the results mapping carried by the frame metadata of the xyz
output file, so re-parsing the stored xyz output lines yields exactly the
stored results_dict. -/
theorem claim_c9_results_dict (r : Retrieved) (outs : List (String × OutVal))
    (h : geomOptParse r = Except.ok outs) :
    ∃ xyzLines d,
      lookupKey "xyz_output" outs = some (OutVal.singleFile xyzLines) ∧
      lookupKey "results_dict" outs = some (OutVal.dict d) ∧
      resultsFromLines xyzLines = some d := by
  obtain ⟨logLines, stdLines, xyzLines, trajLines, xyzFrames, xyzLast,
    trajFrames, lastFrame, _, _, _, _, hpx, hlx, _, _, houts⟩ :=
    geomOptParse_ok_inv r outs h
  refine ⟨xyzLines, parseKVs xyzLast.comment, ?_, ?_, ?_⟩
  · rw [houts]
    simp [lookupKey_cons]
  · rw [houts]
    simp [lookupKey_cons]
  · simp [resultsFromLines, hpx, hlx]

/-- Witness for C9 at a concrete successful parse: the stored results
dict is recovered by re-parsing the stored xyz output lines. -/
theorem claim_c9_results_dict_witness :
    ∃ xyzLines d,
      lookupKey "xyz_output"
        ([("log_output", OutVal.singleFile ["l"]),
          ("xyz_output", OutVal.singleFile ["1", "Lattice=L energy=-1", "H"]),
          ("std_output", OutVal.singleFile ["s"]),
          ("results_dict", OutVal.dict [("Lattice", "L"), ("energy", "-1")]),
          ("traj_file", OutVal.singleFile ["1", "Lattice=L energy=-1", "H"]),
          ("traj_output", OutVal.traj [⟨"1", "Lattice=L energy=-1", ["H"]⟩]),
          ("final_structure",
            OutVal.structureOut ⟨"1", "Lattice=L energy=-1", ["H"]⟩)]
          : List (String × OutVal)) = some (OutVal.singleFile xyzLines) ∧
      lookupKey "results_dict"
        ([("log_output", OutVal.singleFile ["l"]),
          ("xyz_output", OutVal.singleFile ["1", "Lattice=L energy=-1", "H"]),
          ("std_output", OutVal.singleFile ["s"]),
          ("results_dict", OutVal.dict [("Lattice", "L"), ("energy", "-1")]),
          ("traj_file", OutVal.singleFile ["1", "Lattice=L energy=-1", "H"]),
          ("traj_output", OutVal.traj [⟨"1", "Lattice=L energy=-1", ["H"]⟩]),
          ("final_structure",
            OutVal.structureOut ⟨"1", "Lattice=L energy=-1", ["H"]⟩)]
          : List (String × OutVal)) = some (OutVal.dict d) ∧
      resultsFromLines xyzLines = some d :=
  claim_c9_results_dict
    ⟨some ["l"], some ["s"], some ["1", "Lattice=L energy=-1", "H"],
      some ["1", "Lattice=L energy=-1", "H"]⟩ _ (by rfl)

/-- C5: for a geometry-optimisation run whose results and trajectory
files declare the given well-formed frames, parsing succeeds, the
trajectory output is exactly the ordered per-step sequence, numsteps
equals the declared step count, and the final structure is the last frame
of that trajectory, with the same cell. -/
theorem claim_c5_trajectory (logLines stdLines : List String)
    (xyzFrames trajFrames : List Frame) (xyzLast lastF : Frame)
    (hwx : ∀ f ∈ xyzFrames, f.WellFormed)
    (hwt : ∀ f ∈ trajFrames, f.WellFormed)
    (hxlast : List.getLast? xyzFrames = some xyzLast)
    (hlast : List.getLast? trajFrames = some lastF) :
    ∃ outs,
      geomOptParse ⟨some logLines, some stdLines,
        some (framesToLines xyzFrames), some (framesToLines trajFrames)⟩ =
        Except.ok outs ∧
      trajOf outs = some trajFrames ∧
      (∀ fs, trajOf outs = some fs → numsteps fs = trajFrames.length) ∧
      finalOf outs = some lastF ∧
      (∀ f, finalOf outs = some f → cellOf f = cellOf lastF) := by
  have hx := parseFrames_framesToLines xyzFrames hwx
  have ht := parseFrames_framesToLines trajFrames hwt
  refine ⟨[("log_output", OutVal.singleFile logLines),
      ("xyz_output", OutVal.singleFile (framesToLines xyzFrames)),
      ("std_output", OutVal.singleFile stdLines),
      ("results_dict", OutVal.dict (parseKVs xyzLast.comment)),
      ("traj_file", OutVal.singleFile (framesToLines trajFrames)),
      ("traj_output", OutVal.traj trajFrames),
      ("final_structure", OutVal.structureOut lastF)], ?_, ?_, ?_, ?_, ?_⟩
  · simp [geomOptParse, hx, ht, hxlast, hlast]
  · simp [trajOf, lookupKey_cons]
  · intro fs hfs
    simp [trajOf, lookupKey_cons] at hfs
    simp [numsteps, ← hfs]
  · simp [finalOf, lookupKey_cons]
  · intro f hf
    simp [finalOf, lookupKey_cons] at hf
    simp [← hf]

/-- Witness for C5 at a three-step trajectory: numsteps is three and the
final structure carries the cell of the last frame. -/
theorem claim_c5_trajectory_witness :
    ∃ outs,
      geomOptParse ⟨some ["l"], some ["s"],
        some (framesToLines [⟨"1", "Lattice=L3", ["H 0 0 2"]⟩]),
        some (framesToLines
          [⟨"1", "Lattice=L1", ["H 0 0 0"]⟩,
           ⟨"1", "Lattice=L2", ["H 0 0 1"]⟩,
           ⟨"1", "Lattice=L3", ["H 0 0 2"]⟩])⟩ = Except.ok outs ∧
      trajOf outs = some
        [⟨"1", "Lattice=L1", ["H 0 0 0"]⟩,
         ⟨"1", "Lattice=L2", ["H 0 0 1"]⟩,
         ⟨"1", "Lattice=L3", ["H 0 0 2"]⟩] ∧
      (∀ fs, trajOf outs = some fs → numsteps fs =
        ([⟨"1", "Lattice=L1", ["H 0 0 0"]⟩,
          ⟨"1", "Lattice=L2", ["H 0 0 1"]⟩,
          ⟨"1", "Lattice=L3", ["H 0 0 2"]⟩] : List Frame).length) ∧
      finalOf outs = some ⟨"1", "Lattice=L3", ["H 0 0 2"]⟩ ∧
      (∀ f, finalOf outs = some f →
        cellOf f = cellOf ⟨"1", "Lattice=L3", ["H 0 0 2"]⟩) :=
  claim_c5_trajectory ["l"] ["s"]
    [⟨"1", "Lattice=L3", ["H 0 0 2"]⟩]
    [⟨"1", "Lattice=L1", ["H 0 0 0"]⟩,
     ⟨"1", "Lattice=L2", ["H 0 0 1"]⟩,
     ⟨"1", "Lattice=L3", ["H 0 0 2"]⟩]
    ⟨"1", "Lattice=L3", ["H 0 0 2"]⟩ ⟨"1", "Lattice=L3", ["H 0 0 2"]⟩
    (by decide) (by decide) (by rfl) (by rfl)

/-- C6: a results file that cannot be interpreted as frames makes the
parser return the parse-error exit code as a value (never a fault); the
host table records only that job as finished with that error, and every
other job entry is untouched. -/
theorem claim_c6_parse_error_state (r : Retrieved) (xyzLines : List String)
    (tbl : List (Nat × JobState)) (jobId : Nat)
    (hlog : r.logLines.isSome = true) (hstd : r.stdLines.isSome = true)
    (htraj : r.trajLines.isSome = true)
    (hxyz : r.xyzLines = some xyzLines)
    (hbad : parseFrames xyzLines = none) :
    geomOptParse r = Except.error ExitCode.parseError ∧
    (∀ s ∈ recordOutcome tbl jobId (geomOptParse r),
        s.1 = jobId → s.2 = JobState.finishedWithError ExitCode.parseError) ∧
    (∀ s ∈ tbl, s.1 ≠ jobId →
        s ∈ recordOutcome tbl jobId (geomOptParse r)) := by
  obtain ⟨logLines, hlg⟩ := Option.isSome_iff_exists.mp hlog
  obtain ⟨stdLines, hsd⟩ := Option.isSome_iff_exists.mp hstd
  obtain ⟨trajLines, htj⟩ := Option.isSome_iff_exists.mp htraj
  have hmain : geomOptParse r = Except.error ExitCode.parseError := by
    simp [geomOptParse, hlg, hsd, htj, hxyz, hbad]
  refine ⟨hmain, ?_, ?_⟩
  · intro s hs hsid
    rw [hmain] at hs
    simp only [recordOutcome, List.mem_map] at hs
    obtain ⟨t, _, hts⟩ := hs
    subst hts
    by_cases htid : t.1 = jobId
    · simp [htid]
    · simp only [if_neg htid] at hsid ⊢
      exact absurd hsid htid
  · intro s hsmem hsid
    rw [hmain]
    simp only [recordOutcome, List.mem_map]
    exact ⟨s, hsmem, by simp [hsid]⟩

/-- Witness for C6 at a concrete corrupt results file and a two-job
table: job one is marked finished with a parse error, job two untouched. -/
theorem claim_c6_parse_error_state_witness :
    geomOptParse ⟨some ["l"], some ["s"], some ["x"], some []⟩ =
      Except.error ExitCode.parseError ∧
    (∀ s ∈ recordOutcome [(1, JobState.running), (2, JobState.running)] 1
        (geomOptParse ⟨some ["l"], some ["s"], some ["x"], some []⟩),
        s.1 = 1 → s.2 = JobState.finishedWithError ExitCode.parseError) ∧
    (∀ s ∈ [(1, JobState.running), (2, JobState.running)], s.1 ≠ 1 →
        s ∈ recordOutcome [(1, JobState.running), (2, JobState.running)] 1
          (geomOptParse ⟨some ["l"], some ["s"], some ["x"], some []⟩)) :=
  claim_c6_parse_error_state ⟨some ["l"], some ["s"], some ["x"], some []⟩
    ["x"] [(1, JobState.running), (2, JobState.running)] 1
    rfl rfl rfl rfl (by rfl)

end AiidaMlip
